import Mathlib

/-!
Verification of the Voltx Modbus polling core, embedded from
custom_components/voltx_modbus (coordinator.py, number.py, select.py).

Modelling conventions: raw register words are Nat (the transport delivers
u16 values); Python numbers are exact rationals, with Python round modelled
as round-half-to-even on rationals; a failed Modbus block read (None from
pyModbusTCP) is Option.none; exceptions are Except.error values.
-/

namespace Voltx

/-- Python round to an integer (round half to even), as used by
int(round(...)) in the write path and by round(x, n) scaling. -/
def pythonRound (q : ℚ) : Int :=
  let f := ⌊q⌋
  let r := q - (f : ℚ)
  if r < 1 / 2 then f
  else if 1 / 2 < r then f + 1
  else if f % 2 = 0 then f else f + 1

/-- Python round(x, n) on an exact rational: scale by 10 ^ n, round half to
even, scale back. -/
def roundTo (q : ℚ) (n : Nat) : ℚ :=
  (pythonRound (q * 10 ^ n) : ℚ) / 10 ^ n

/-- Embeds coordinator._s16: reinterpret the low 16 bits of a raw register
word as a signed twos-complement int16 (struct pack then unpack). -/
def s16 (raw : Nat) : Int :=
  let r := raw % 65536
  if r < 32768 then (r : Int) else (r : Int) - 65536

/-- Embeds the big-endian u32 word combination used by coordinator._s32 and
by the energy-today counters: low 16 bits of hi shifted left 16, or-ed with
the low 16 bits of lo. -/
def combineU32 (hi lo : Nat) : Nat :=
  ((hi % 65536) <<< 16) ||| (lo % 65536)

/-- Embeds coordinator._s32: combine two raw u16 registers big-endian and
reinterpret as a signed twos-complement int32. -/
def s32 (hi lo : Nat) : Int :=
  let raw := combineU32 hi lo
  if raw < 2147483648 then (raw : Int) else (raw : Int) - 4294967296

/-- Embeds the dict.get(raw, synthetic Unknown label) pattern used for the
status enums in coordinator._fetch_data: total enum decoding. -/
def decodeEnum (table : List (Int × String)) (raw : Int) : String :=
  match table.lookup raw with
  | some label => label
  | none => "Unknown(" ++ toString raw ++ ")"

/-- Embeds coordinator._INV_STATUS. -/
def invStatusTable : List (Int × String) :=
  [(0, "Waiting"), (1, "Normal"), (2, "Fault"), (4, "Checking")]

/-- Embeds coordinator._BATT_STATUS. -/
def battStatusTable : List (Int × String) :=
  [(0, "N/A"), (1, "Idle"), (2, "Charging"), (3, "Discharging"), (4, "Error")]

/-- Embeds coordinator._CHFLG. -/
def chflgTable : List (Int × String) :=
  [(1, "Stop"), (2, "Charging"), (3, "Discharging")]

/-- A decoded snapshot value: Python int, Python float (as exact rational),
string label, or None (the absent sentinel). -/
inductive Value where
  | int (i : Int)
  | rat (q : ℚ)
  | str (s : String)
  | absent
  deriving DecidableEq, Repr

/-- A telemetry snapshot: the data dict built by one poll cycle, as an
insertion-ordered association list (all keys are distinct across blocks). -/
abbrev Snapshot := List (String × Value)

/-- Embeds the inverter input-register block decode of
coordinator._fetch_data (read base 1300, offsets are doc address minus
1300). Register accesses are partial so an out-of-range index models a
Python IndexError. -/
def decodeInverterBlock (regs : List Nat) : Option Snapshot := do
  let hto : Nat ← regs[1307 - 1300]?
  let flgRaw : Nat ← regs[1308 - 1300]?
  let tmpW : Nat ← regs[1310 - 1300]?
  let vbusW : Nat ← regs[1316 - 1300]?
  let vacW : Nat ← regs[1358 - 1300]?
  let iacW : Nat ← regs[1359 - 1300]?
  let facW : Nat ← regs[1367 - 1300]?
  let sacHi : Nat ← regs[1368 - 1300]?
  let sacLo : Nat ← regs[1369 - 1300]?
  let pacHi : Nat ← regs[1370 - 1300]?
  let pacLo : Nat ← regs[1371 - 1300]?
  let qacHi : Nat ← regs[1372 - 1300]?
  let qacLo : Nat ← regs[1373 - 1300]?
  let pfW : Nat ← regs[1374 - 1300]?
  let tmpRaw := s16 tmpW
  pure [
    ("hto", Value.int (hto : Int)),
    ("flg", Value.str (decodeEnum invStatusTable (flgRaw : Int))),
    ("tmp", if tmpRaw = -32768 then Value.absent
            else Value.rat (roundTo ((tmpRaw : ℚ) * (1 / 10)) 1)),
    ("vbus", Value.rat (roundTo ((vbusW : ℚ) * (1 / 10)) 1)),
    ("vac", Value.rat (roundTo ((vacW : ℚ) * (1 / 10)) 1)),
    ("iac", Value.rat (roundTo ((iacW : ℚ) * (1 / 10)) 1)),
    ("fac", Value.rat (roundTo ((facW : ℚ) * (1 / 100)) 2)),
    ("sac", Value.int (s32 sacHi sacLo)),
    ("pac", Value.int (s32 pacHi pacLo)),
    ("qac", Value.int (s32 qacHi qacLo)),
    ("pf", Value.rat (roundTo ((pfW : ℚ) * (1 / 100)) 2))]

/-- Embeds the battery status block decode of coordinator._fetch_data
(read base 1606, two registers). -/
def decodeBattStatusBlock (regs : List Nat) : Option Snapshot := do
  let bcommRaw : Nat ← regs[0]?
  let bstRaw : Nat ← regs[1]?
  pure [
    ("bcomm", Value.int (bcommRaw : Int)),
    ("bst", Value.str (decodeEnum battStatusTable (bstRaw : Int)))]

/-- Embeds the battery data block decode of coordinator._fetch_data
(read base 1616, thirteen registers). -/
def decodeBattDataBlock (regs : List Nat) : Option Snapshot := do
  let vbW : Nat ← regs[0]?
  let cbW : Nat ← regs[1]?
  let pbHi : Nat ← regs[2]?
  let pbLo : Nat ← regs[3]?
  let tbW : Nat ← regs[4]?
  let socW : Nat ← regs[5]?
  let sohW : Nat ← regs[6]?
  let cliW : Nat ← regs[7]?
  let cloW : Nat ← regs[8]?
  let eChgHi : Nat ← regs[9]?
  let eChgLo : Nat ← regs[10]?
  let eDisHi : Nat ← regs[11]?
  let eDisLo : Nat ← regs[12]?
  pure [
    ("vb", Value.rat (roundTo ((vbW : ℚ) * (1 / 100)) 2)),
    ("cb", Value.rat (roundTo ((s16 cbW : ℚ) * (1 / 10)) 1)),
    ("pb", Value.int (s32 pbHi pbLo)),
    ("tb", Value.rat (roundTo ((s16 tbW : ℚ) * (1 / 10)) 1)),
    ("soc", Value.int (socW : Int)),
    ("soh", Value.int (sohW : Int)),
    ("cli", Value.rat (roundTo ((cliW : ℚ) * (1 / 10)) 1)),
    ("clo", Value.rat (roundTo ((cloW : ℚ) * (1 / 10)) 1)),
    ("e_chg_today", Value.rat (roundTo ((combineU32 eChgHi eChgLo : ℚ) * (1 / 10)) 1)),
    ("e_dis_today", Value.rat (roundTo ((combineU32 eDisHi eDisLo : ℚ) * (1 / 10)) 1))]

/-- Embeds the settings holding-register block decode of
coordinator._fetch_data (read base 1100, offsets are doc address minus
1100). -/
def decodeHoldingBlock (regs : List Nat) : Option Snapshot := do
  let workModeRaw : Nat ← regs[1103 - 1100]?
  let cloudRaw : Nat ← regs[1150 - 1100]?
  let chflgRaw : Nat ← regs[1151 - 1100]?
  let chpwrW : Nat ← regs[1152 - 1100]?
  let socMaxW : Nat ← regs[1153 - 1100]?
  let socMinW : Nat ← regs[1154 - 1100]?
  pure [
    ("work_mode", Value.int (workModeRaw : Int)),
    ("cloud_status", Value.int (cloudRaw : Int)),
    ("chflg", Value.str (decodeEnum chflgTable (chflgRaw : Int))),
    ("chpwr", Value.int (s16 chpwrW)),
    ("soc_max", Value.int ((socMaxW / 100 : Nat) : Int)),
    ("soc_min", Value.int ((socMinW / 100 : Nat) : Int))]

/-- One read-and-decode section of coordinator._fetch_data: a failed read
(None) or a short read failing the length guard is logged and skipped,
contributing no fields; a read passing the guard is decoded, with an
out-of-range index inside the decoder escaping as an error. -/
def blockSection (read : Option (List Nat)) (need : Nat)
    (dec : List Nat → Option Snapshot) : Except String Snapshot :=
  match read with
  | none => Except.ok []
  | some regs =>
    if need ≤ regs.length then
      match dec regs with
      | some fields => Except.ok fields
      | none => Except.error ("IndexError")
    else Except.ok []

/-- Embeds coordinator._fetch_data: with the TCP connection open, read and
decode the four register blocks in order and merge their fields into one
data dict; with the connection closed, raise UpdateFailed. The four read
arguments model read_input_registers(1300, 80), read_input_registers(1606,
2), read_input_registers(1616, 13) and read_holding_registers(1100, 55);
none models a failed read. -/
def fetchData (connOpen : Bool) (r1 r2a r2b r3 : Option (List Nat)) :
    Except String Snapshot :=
  if connOpen then do
    let f1 ← blockSection r1 75 decodeInverterBlock
    let f2a ← blockSection r2a 2 decodeBattStatusBlock
    let f2b ← blockSection r2b 13 decodeBattDataBlock
    let f3 ← blockSection r3 55 decodeHoldingBlock
    pure (f1 ++ f2a ++ f2b ++ f3)
  else Except.error ("Cannot open Modbus TCP connection")

/-- Modelled from the spec: the host frameworks DataUpdateCoordinator (not
part of src/) replaces the stored snapshot wholesale when a cycle returns
data and preserves the previous snapshot when the cycle raises an update
failure. -/
def applyCycle (prev : Option Snapshot) (cycle : Except String Snapshot) :
    Option Snapshot :=
  match cycle with
  | Except.ok snap => some snap
  | Except.error _ => prev

/-- Outcome of one write request: the operation result, the 16-bit word
transmitted via write_single_register (none when transmission was never
attempted), how many coordinator refreshes were scheduled, and the stored
snapshot afterwards. -/
structure WriteOutcome where
  result : Except String Unit
  sent : Option Nat
  refreshes : Nat
  snap : Option Snapshot
  deriving Repr

/-- Embeds coordinator._write_register together with async_write_register:
when the connection cannot be opened raise UpdateFailed without
transmitting; otherwise transmit value masked to u16 (twos-complement for
negatives); when the device rejects the write raise UpdateFailed and
schedule no refresh; on success schedule exactly one request_refresh task.
The stored snapshot is never touched by the write path. -/
def asyncWriteRegister (connOpen deviceAccepts : Bool) (snap : Option Snapshot)
    (address : Nat) (value : Int) : WriteOutcome :=
  if connOpen then
    let word := (value % 65536).toNat
    if deviceAccepts then
      { result := Except.ok (), sent := some word, refreshes := 1, snap := snap }
    else
      { result := Except.error ("Write to register " ++ toString address ++ " failed"),
        sent := some word, refreshes := 0, snap := snap }
  else
    { result := Except.error ("Cannot open Modbus TCP connection"),
      sent := none, refreshes := 0, snap := snap }

/-- A writable number entity description from number.py: key, holding
register address, raw scale and native range. -/
structure NumberDesc where
  key : String
  register : Nat
  rawScale : Int
  minVal : Int
  maxVal : Int
  deriving DecidableEq, Repr

/-- Embeds NUMBER_DESCRIPTIONS from number.py. -/
def numberDescriptions : List NumberDesc :=
  [ { key := "chpwr", register := 1152, rawScale := 1,
      minVal := -10000, maxVal := 10000 },
    { key := "soc_max", register := 1153, rawScale := 100,
      minVal := 0, maxVal := 100 },
    { key := "soc_min", register := 1154, rawScale := 100,
      minVal := 0, maxVal := 100 } ]

/-- Embeds number.py async_set_native_value encoding:
raw = int(round(value * raw_scale)). -/
def encodeWrite (value : ℚ) (rawScale : Int) : Int :=
  pythonRound (value * (rawScale : ℚ))

/-- Embeds the work-mode options_map of select.py. -/
def workModeOptionsMap : List (Nat × String) :=
  [(2, "Self-consumption"), (3, "Reserve Power"), (4, "Custom"),
   (5, "Time of Use")]

/-- Embeds the reverse map (label to raw) built in
VoltxSelectEntity.__init__. -/
def workModeReverseMap : List (String × Nat) :=
  workModeOptionsMap.map (fun p => (p.2, p.1))

/-- Embeds select.py async_select_option: an unknown label returns without
writing; a known label writes its raw value to register 1103 through the
coordinator. -/
def asyncSelectOption (connOpen deviceAccepts : Bool) (snap : Option Snapshot)
    (label : String) : WriteOutcome :=
  match workModeReverseMap.lookup label with
  | none => { result := Except.ok (), sent := none, refreshes := 0, snap := snap }
  | some raw => asyncWriteRegister connOpen deviceAccepts snap 1103 (raw : Int)

/-- A block read succeeded and passed its length guard. -/
def blockOk (read : Option (List Nat)) (need : Nat) : Prop :=
  ∃ regs, read = some regs ∧ need ≤ regs.length

/-- A block read failed: no response, or a short response failing the
length guard. -/
def blockFailed (read : Option (List Nat)) (need : Nat) : Prop :=
  read = none ∨ ∃ regs, read = some regs ∧ regs.length < need

/-- The field (k, v) is produced by decoding a read that succeeded and
passed its length guard. -/
def blockDecodes (read : Option (List Nat)) (need : Nat)
    (dec : List Nat → Option Snapshot) (k : String) (v : Value) : Prop :=
  ∃ regs fields, read = some regs ∧ need ≤ regs.length ∧
    dec regs = some fields ∧ (k, v) ∈ fields

end Voltx

namespace Voltx

/-- An index below a length guard always reads a word. -/
theorem get_some_of_lt {regs : List Nat} {i n : Nat} (hi : i < n)
    (h : n ≤ regs.length) : ∃ w, regs[i]? = some w := by
  have hlt : i < regs.length := lt_of_lt_of_le hi h
  exact ⟨_, List.getElem?_eq_getElem hlt⟩

/-- Under the length-75 guard the inverter block decoder never indexes out
of range. -/
theorem decodeInverterBlock_total {regs : List Nat} (h : 75 ≤ regs.length) :
    (decodeInverterBlock regs).isSome := by
  obtain ⟨w7, e7⟩ := get_some_of_lt (show 7 < 75 by norm_num) h
  obtain ⟨w8, e8⟩ := get_some_of_lt (show 8 < 75 by norm_num) h
  obtain ⟨w10, e10⟩ := get_some_of_lt (show 10 < 75 by norm_num) h
  obtain ⟨w16, e16⟩ := get_some_of_lt (show 16 < 75 by norm_num) h
  obtain ⟨w58, e58⟩ := get_some_of_lt (show 58 < 75 by norm_num) h
  obtain ⟨w59, e59⟩ := get_some_of_lt (show 59 < 75 by norm_num) h
  obtain ⟨w67, e67⟩ := get_some_of_lt (show 67 < 75 by norm_num) h
  obtain ⟨w68, e68⟩ := get_some_of_lt (show 68 < 75 by norm_num) h
  obtain ⟨w69, e69⟩ := get_some_of_lt (show 69 < 75 by norm_num) h
  obtain ⟨w70, e70⟩ := get_some_of_lt (show 70 < 75 by norm_num) h
  obtain ⟨w71, e71⟩ := get_some_of_lt (show 71 < 75 by norm_num) h
  obtain ⟨w72, e72⟩ := get_some_of_lt (show 72 < 75 by norm_num) h
  obtain ⟨w73, e73⟩ := get_some_of_lt (show 73 < 75 by norm_num) h
  obtain ⟨w74, e74⟩ := get_some_of_lt (show 74 < 75 by norm_num) h
  simp [decodeInverterBlock, e7, e8, e10, e16, e58, e59, e67, e68, e69,
        e70, e71, e72, e73, e74]

/-- Under the length-2 guard the battery status decoder never indexes out
of range. -/
theorem decodeBattStatusBlock_total {regs : List Nat} (h : 2 ≤ regs.length) :
    (decodeBattStatusBlock regs).isSome := by
  obtain ⟨w0, e0⟩ := get_some_of_lt (show 0 < 2 by norm_num) h
  obtain ⟨w1, e1⟩ := get_some_of_lt (show 1 < 2 by norm_num) h
  simp [decodeBattStatusBlock, e0, e1]

/-- Under the length-13 guard the battery data decoder never indexes out of
range. -/
theorem decodeBattDataBlock_total {regs : List Nat} (h : 13 ≤ regs.length) :
    (decodeBattDataBlock regs).isSome := by
  obtain ⟨w0, e0⟩ := get_some_of_lt (show 0 < 13 by norm_num) h
  obtain ⟨w1, e1⟩ := get_some_of_lt (show 1 < 13 by norm_num) h
  obtain ⟨w2, e2⟩ := get_some_of_lt (show 2 < 13 by norm_num) h
  obtain ⟨w3, e3⟩ := get_some_of_lt (show 3 < 13 by norm_num) h
  obtain ⟨w4, e4⟩ := get_some_of_lt (show 4 < 13 by norm_num) h
  obtain ⟨w5, e5⟩ := get_some_of_lt (show 5 < 13 by norm_num) h
  obtain ⟨w6, e6⟩ := get_some_of_lt (show 6 < 13 by norm_num) h
  obtain ⟨w7, e7⟩ := get_some_of_lt (show 7 < 13 by norm_num) h
  obtain ⟨w8, e8⟩ := get_some_of_lt (show 8 < 13 by norm_num) h
  obtain ⟨w9, e9⟩ := get_some_of_lt (show 9 < 13 by norm_num) h
  obtain ⟨w10, e10⟩ := get_some_of_lt (show 10 < 13 by norm_num) h
  obtain ⟨w11, e11⟩ := get_some_of_lt (show 11 < 13 by norm_num) h
  obtain ⟨w12, e12⟩ := get_some_of_lt (show 12 < 13 by norm_num) h
  simp [decodeBattDataBlock, e0, e1, e2, e3, e4, e5, e6, e7, e8, e9, e10,
        e11, e12]

/-- Under the length-55 guard the holding block decoder never indexes out
of range. -/
theorem decodeHoldingBlock_total {regs : List Nat} (h : 55 ≤ regs.length) :
    (decodeHoldingBlock regs).isSome := by
  obtain ⟨w3, e3⟩ := get_some_of_lt (show 3 < 55 by norm_num) h
  obtain ⟨w50, e50⟩ := get_some_of_lt (show 50 < 55 by norm_num) h
  obtain ⟨w51, e51⟩ := get_some_of_lt (show 51 < 55 by norm_num) h
  obtain ⟨w52, e52⟩ := get_some_of_lt (show 52 < 55 by norm_num) h
  obtain ⟨w53, e53⟩ := get_some_of_lt (show 53 < 55 by norm_num) h
  obtain ⟨w54, e54⟩ := get_some_of_lt (show 54 < 55 by norm_num) h
  simp [decodeHoldingBlock, e3, e50, e51, e52, e53, e54]

/-- Python round is the identity on integers. -/
theorem pythonRound_intCast (n : Int) : pythonRound (n : ℚ) = n := by
  unfold pythonRound
  norm_num

/-- Or-ing a 16-bit word into the low bits of a left-shifted value is plain
addition. -/
theorem shiftLeft16_lor_eq (b a : Nat) (ha : a < 65536) :
    (b <<< 16) ||| a = b * 65536 + a := by
  apply Nat.eq_of_testBit_eq
  intro i
  rw [Nat.testBit_or]
  rcases Nat.lt_or_ge i 16 with hi | hi
  · have h1 : (b <<< 16).testBit i = false := by
      rw [Nat.testBit_shiftLeft]
      simp [Nat.not_le.mpr hi]
    have h2 : (b * 65536 + a) % 2 ^ 16 = a := by
      have e : (2 : Nat) ^ 16 = 65536 := by norm_num
      rw [e]
      omega
    have h3 : (b * 65536 + a).testBit i = a.testBit i := by
      conv_rhs => rw [← h2]
      rw [Nat.testBit_mod_two_pow]
      simp [hi]
    simp [h1, h3]
  · have h1 : a.testBit i = false := by
      apply Nat.testBit_lt_two_pow
      calc a < 65536 := ha
        _ = 2 ^ 16 := by norm_num
        _ ≤ 2 ^ i := Nat.pow_le_pow_right (by norm_num) hi
    have h2 : (b * 65536 + a) / 2 ^ i = b / 2 ^ (i - 16) := by
      have hsplit : (2 : Nat) ^ i = 65536 * 2 ^ (i - 16) := by
        have hi16 : i = 16 + (i - 16) := by omega
        rw [hi16, pow_add]
        norm_num
      rw [hsplit, ← Nat.div_div_eq_div_mul]
      congr 1
      rw [Nat.mul_comm b 65536, Nat.mul_add_div (by norm_num)]
      omega
    rw [h1, Bool.or_false, Nat.testBit_shiftLeft, Nat.testBit_to_div_mod,
      Nat.testBit_to_div_mod, h2]
    simp [hi]

end Voltx

namespace Voltx

/-- One block section never aborts the cycle when its decoder is total
under the guard, and its fields are exactly the decoded fields of a
succeeding read (a failed or short read contributes nothing). -/
theorem blockSection_ok (read : Option (List Nat)) (need : Nat)
    (dec : List Nat → Option Snapshot)
    (htotal : ∀ regs : List Nat, need ≤ regs.length → (dec regs).isSome) :
    ∃ fields, blockSection read need dec = Except.ok fields ∧
      ∀ k v, ((k, v) ∈ fields ↔ blockDecodes read need dec k v) := by
  cases read with
  | none =>
    refine ⟨[], rfl, ?_⟩
    intro k v
    simp [blockDecodes]
  | some regs =>
    by_cases hg : need ≤ regs.length
    · obtain ⟨fields, hf⟩ := Option.isSome_iff_exists.mp (htotal regs hg)
      refine ⟨fields, ?_, ?_⟩
      · simp [blockSection, hg, hf]
      · intro k v
        constructor
        · intro hkv
          exact ⟨regs, fields, rfl, hg, hf, hkv⟩
        · rintro ⟨regs2, fields2, heq, hg2, hf2, hkv⟩
          obtain rfl := Option.some.inj heq
          rw [hf] at hf2
          obtain rfl := Option.some.inj hf2
          exact hkv
    · refine ⟨[], ?_, ?_⟩
      · simp [blockSection, hg]
      · intro k v
        simp only [List.not_mem_nil, false_iff]
        rintro ⟨regs2, fields2, heq, hg2, _, _⟩
        obtain rfl := Option.some.inj heq
        omega

/-- fetchData with the connection open concatenates the resolved sections. -/
theorem fetchData_eq (r1 r2a r2b r3 : Option (List Nat))
    {f1 f2a f2b f3 : Snapshot}
    (h1 : blockSection r1 75 decodeInverterBlock = Except.ok f1)
    (h2a : blockSection r2a 2 decodeBattStatusBlock = Except.ok f2a)
    (h2b : blockSection r2b 13 decodeBattDataBlock = Except.ok f2b)
    (h3 : blockSection r3 55 decodeHoldingBlock = Except.ok f3) :
    fetchData true r1 r2a r2b r3 = Except.ok (f1 ++ f2a ++ f2b ++ f3) := by
  simp [fetchData, h1, h2a, h2b, h3]
  rfl

end Voltx

namespace Voltx

/-- Claim C1: in a poll cycle with the TCP connection open in which at
least one register block read succeeds (passing its length guard) and at
least one fails, the cycle completes successfully (no update failure) and
the snapshot contains exactly the decoded fields of every succeeding block
and no field of any failing block. -/
theorem fetch_mixed_block_failure_exact_fields (r1 r2a r2b r3 : Option (List Nat))
    (hok : blockOk r1 75 ∨ blockOk r2a 2 ∨ blockOk r2b 13 ∨ blockOk r3 55)
    (hfail : blockFailed r1 75 ∨ blockFailed r2a 2 ∨ blockFailed r2b 13 ∨
      blockFailed r3 55) :
    ∃ snap, fetchData true r1 r2a r2b r3 = Except.ok snap ∧
      ∀ k v, ((k, v) ∈ snap ↔
        (blockDecodes r1 75 decodeInverterBlock k v ∨
         blockDecodes r2a 2 decodeBattStatusBlock k v ∨
         blockDecodes r2b 13 decodeBattDataBlock k v ∨
         blockDecodes r3 55 decodeHoldingBlock k v)) := by
  obtain ⟨f1, hs1, hm1⟩ := blockSection_ok r1 75 decodeInverterBlock
    (fun _ h => decodeInverterBlock_total h)
  obtain ⟨f2a, hs2a, hm2a⟩ := blockSection_ok r2a 2 decodeBattStatusBlock
    (fun _ h => decodeBattStatusBlock_total h)
  obtain ⟨f2b, hs2b, hm2b⟩ := blockSection_ok r2b 13 decodeBattDataBlock
    (fun _ h => decodeBattDataBlock_total h)
  obtain ⟨f3, hs3, hm3⟩ := blockSection_ok r3 55 decodeHoldingBlock
    (fun _ h => decodeHoldingBlock_total h)
  refine ⟨f1 ++ f2a ++ f2b ++ f3,
    fetchData_eq r1 r2a r2b r3 hs1 hs2a hs2b hs3, ?_⟩
  intro k v
  simp only [List.mem_append]
  rw [hm1 k v, hm2a k v, hm2b k v, hm3 k v]
  tauto

/-- Witness for C1 at a concrete cycle: the inverter block succeeds with 75
zero registers, the other three block reads fail. -/
theorem fetch_mixed_block_failure_exact_fields_witness :
    (blockOk (some (List.replicate 75 0)) 75 ∨ blockOk none 2 ∨
      blockOk none 13 ∨ blockOk none 55) ∧
    (blockFailed (some (List.replicate 75 0)) 75 ∨ blockFailed none 2 ∨
      blockFailed none 13 ∨ blockFailed none 55) ∧
    (∃ snap, fetchData true (some (List.replicate 75 0)) none none none =
        Except.ok snap ∧
      ∀ k v, ((k, v) ∈ snap ↔
        (blockDecodes (some (List.replicate 75 0)) 75 decodeInverterBlock k v ∨
         blockDecodes none 2 decodeBattStatusBlock k v ∨
         blockDecodes none 13 decodeBattDataBlock k v ∨
         blockDecodes none 55 decodeHoldingBlock k v))) :=
  ⟨Or.inl ⟨_, rfl, by simp⟩, Or.inr (Or.inl (Or.inl rfl)),
   fetch_mixed_block_failure_exact_fields _ _ _ _ (Or.inl ⟨_, rfl, by simp⟩)
     (Or.inr (Or.inl (Or.inl rfl)))⟩

/-- Counterexample to claim C2 as stated: with the TCP connection open and
every block read failing, the cycle raises no update failure — it returns
an empty snapshot — and the stored snapshot is replaced by the empty
mapping rather than left unchanged. -/
theorem all_blocks_failed_counterexample :
    fetchData true none none none none = Except.ok [] ∧
    applyCycle (some [("soc", Value.int 50)])
        (fetchData true none none none none) = some [] ∧
    applyCycle (some [("soc", Value.int 50)])
        (fetchData true none none none none) ≠ some [("soc", Value.int 50)] := by
  refine ⟨rfl, rfl, ?_⟩
  decide

/-- Claim C2 amended: when the TCP connection cannot be opened the cycle
raises an update failure and the stored snapshot is preserved; but when
the connection opens and every block read fails, the cycle completes
successfully with an empty snapshot, which replaces the stored one. -/
theorem all_blocks_failed_empty_snapshot (r1 r2a r2b r3 : Option (List Nat))
    (prev : Option Snapshot)
    (h1 : blockFailed r1 75) (h2a : blockFailed r2a 2)
    (h2b : blockFailed r2b 13) (h3 : blockFailed r3 55) :
    fetchData true r1 r2a r2b r3 = Except.ok [] ∧
    applyCycle prev (fetchData true r1 r2a r2b r3) = some [] ∧
    (∃ e, fetchData false r1 r2a r2b r3 = Except.error e) ∧
    applyCycle prev (fetchData false r1 r2a r2b r3) = prev := by
  have hsec : ∀ (read : Option (List Nat)) (need : Nat)
      (dec : List Nat → Option Snapshot),
      blockFailed read need → blockSection read need dec = Except.ok [] := by
    intro read need dec hf
    rcases hf with rfl | ⟨regs, rfl, hlen⟩
    · rfl
    · have hn : ¬ need ≤ regs.length := by omega
      simp [blockSection, hn]
  have e1 := hsec r1 75 decodeInverterBlock h1
  have e2a := hsec r2a 2 decodeBattStatusBlock h2a
  have e2b := hsec r2b 13 decodeBattDataBlock h2b
  have e3 := hsec r3 55 decodeHoldingBlock h3
  have hfetch : fetchData true r1 r2a r2b r3 = Except.ok [] := by
    have := fetchData_eq r1 r2a r2b r3 e1 e2a e2b e3
    simpa using this
  exact ⟨hfetch, by rw [hfetch]; rfl, ⟨_, rfl⟩, rfl⟩

/-- Witness for the amended C2 at a concrete cycle: three reads return
nothing, the holding read is short (one register), with a nonempty prior
snapshot. -/
theorem all_blocks_failed_empty_snapshot_witness :
    blockFailed (some [1]) 55 ∧
    (fetchData true none none none (some [1]) = Except.ok [] ∧
     applyCycle (some [("soc", Value.int 50)])
        (fetchData true none none none (some [1])) = some [] ∧
     (∃ e, fetchData false none none none (some [1]) = Except.error e) ∧
     applyCycle (some [("soc", Value.int 50)])
        (fetchData false none none none (some [1])) =
          some [("soc", Value.int 50)]) :=
  ⟨Or.inr ⟨[1], rfl, by norm_num⟩,
   all_blocks_failed_empty_snapshot none none none (some [1])
     (some [("soc", Value.int 50)]) (Or.inl rfl) (Or.inl rfl) (Or.inl rfl)
     (Or.inr ⟨[1], rfl, by norm_num⟩)⟩

/-- Claim C9: under each block length guard (75 for the inverter block,
2 for battery status, 13 for battery data, 55 for the holding block) every
register index the decoder uses is strictly within bounds, so decoding
never indexes out of range. -/
theorem decoders_never_index_out_of_range :
    (∀ regs : List Nat, 75 ≤ regs.length → (decodeInverterBlock regs).isSome) ∧
    (∀ regs : List Nat, 2 ≤ regs.length → (decodeBattStatusBlock regs).isSome) ∧
    (∀ regs : List Nat, 13 ≤ regs.length → (decodeBattDataBlock regs).isSome) ∧
    (∀ regs : List Nat, 55 ≤ regs.length → (decodeHoldingBlock regs).isSome) :=
  ⟨fun _ h => decodeInverterBlock_total h,
   fun _ h => decodeBattStatusBlock_total h,
   fun _ h => decodeBattDataBlock_total h,
   fun _ h => decodeHoldingBlock_total h⟩

/-- Witness for C9 at concrete minimal-length register lists. -/
theorem decoders_never_index_out_of_range_witness :
    75 ≤ (List.replicate 75 0).length ∧
    (decodeInverterBlock (List.replicate 75 0)).isSome ∧
    (decodeBattStatusBlock (List.replicate 2 0)).isSome ∧
    (decodeBattDataBlock (List.replicate 13 0)).isSome ∧
    (decodeHoldingBlock (List.replicate 55 0)).isSome :=
  ⟨by simp,
   decoders_never_index_out_of_range.1 _ (by simp),
   decoders_never_index_out_of_range.2.1 _ (by simp),
   decoders_never_index_out_of_range.2.2.1 _ (by simp),
   decoders_never_index_out_of_range.2.2.2 _ (by simp)⟩

end Voltx

namespace Voltx

/-- Claim C3: for every raw in [0, 65535], s16 raw is the standard
twos-complement interpretation of the low 16 bits — it equals raw below
0x8000 and raw - 0x10000 from 0x8000 up, is congruent to raw mod 2 ^ 16
and lies in [-32768, 32768); in particular s16 0x8000 = -32768 and
s16 0x7FFF = 32767. -/
theorem s16_twos_complement :
    (∀ raw : Nat, raw ≤ 65535 →
      s16 raw = (if raw < 32768 then (raw : Int) else (raw : Int) - 65536) ∧
      s16 raw % 65536 = (raw : Int) % 65536 ∧
      -32768 ≤ s16 raw ∧ s16 raw < 32768) ∧
    s16 32768 = -32768 ∧ s16 32767 = 32767 := by
  refine ⟨?_, by decide, by decide⟩
  intro raw hraw
  have hmod : raw % 65536 = raw := Nat.mod_eq_of_lt (by omega)
  have heq : s16 raw =
      (if raw < 32768 then (raw : Int) else (raw : Int) - 65536) := by
    simp only [s16, hmod]
  refine ⟨heq, ?_, ?_, ?_⟩ <;> rw [heq] <;>
    by_cases hlt : raw < 32768 <;> simp [hlt]
  all_goals omega

/-- Witness for C3 at the concrete raw value 40000. -/
theorem s16_twos_complement_witness :
    (40000 : Nat) ≤ 65535 ∧
    (s16 40000 = (if (40000 : Nat) < 32768 then ((40000 : Nat) : Int)
        else ((40000 : Nat) : Int) - 65536) ∧
      s16 40000 % 65536 = ((40000 : Nat) : Int) % 65536 ∧
      -32768 ≤ s16 40000 ∧ s16 40000 < 32768) :=
  ⟨by norm_num, s16_twos_complement.1 40000 (by norm_num)⟩

/-- Claim C4: s32 combines two 16-bit words big-endian (hi shifted left 16,
or-ed with lo) and reinterprets the 32-bit pattern as signed
twos-complement: the result is congruent to hi * 2 ^ 16 + lo mod 2 ^ 32
and lies in [-2 ^ 31, 2 ^ 31); in particular s32 0xFFFF 0xFFFF = -1 and
s32 0 1 = 1. -/
theorem s32_twos_complement :
    (∀ hi lo : Nat, hi ≤ 65535 → lo ≤ 65535 →
      combineU32 hi lo = hi * 65536 + lo ∧
      s32 hi lo % 4294967296 = ((hi : Int) * 65536 + lo) % 4294967296 ∧
      -2147483648 ≤ s32 hi lo ∧ s32 hi lo < 2147483648) ∧
    s32 65535 65535 = -1 ∧ s32 0 1 = 1 := by
  refine ⟨?_, by decide, by decide⟩
  intro hi lo hhi hlo
  have hmodh : hi % 65536 = hi := Nat.mod_eq_of_lt (by omega)
  have hmodl : lo % 65536 = lo := Nat.mod_eq_of_lt (by omega)
  have hcomb : combineU32 hi lo = hi * 65536 + lo := by
    rw [combineU32, hmodh, hmodl, shiftLeft16_lor_eq hi lo (by omega)]
  refine ⟨hcomb, ?_⟩
  simp only [s32, hcomb]
  by_cases hlt : hi * 65536 + lo < 2147483648 <;> simp [hlt] <;> omega

/-- Witness for C4 at the concrete words hi = 0x8000, lo = 5. -/
theorem s32_twos_complement_witness :
    (32768 : Nat) ≤ 65535 ∧ (5 : Nat) ≤ 65535 ∧
    (combineU32 32768 5 = 32768 * 65536 + 5 ∧
      s32 32768 5 % 4294967296 =
        (((32768 : Nat) : Int) * 65536 + ((5 : Nat) : Int)) % 4294967296 ∧
      -2147483648 ≤ s32 32768 5 ∧ s32 32768 5 < 2147483648) :=
  ⟨by norm_num, by norm_num,
   s32_twos_complement.1 32768 5 (by norm_num) (by norm_num)⟩

/-- Claim C5: enum decoding is total for every integer raw value and each
of the three status tables: a raw present in the table decodes to its
label, an absent raw decodes to the synthetic Unknown label; it never
fails for any integer input. -/
theorem decodeEnum_total_or_unknown :
    ∀ table ∈ [invStatusTable, battStatusTable, chflgTable], ∀ raw : Int,
      (∀ label, table.lookup raw = some label → decodeEnum table raw = label) ∧
      (table.lookup raw = none →
        decodeEnum table raw = "Unknown(" ++ toString raw ++ ")") := by
  intro table _ raw
  constructor
  · intro label hl
    simp [decodeEnum, hl]
  · intro hl
    simp [decodeEnum, hl]

/-- Witness for C5: raw 7 is absent from the inverter status table and
decodes to the synthetic label; raw 1 is present and decodes to Normal. -/
theorem decodeEnum_total_or_unknown_witness :
    invStatusTable ∈ [invStatusTable, battStatusTable, chflgTable] ∧
    invStatusTable.lookup (7 : Int) = none ∧
    decodeEnum invStatusTable 7 = "Unknown(" ++ toString (7 : Int) ++ ")" ∧
    invStatusTable.lookup (1 : Int) = some ("Normal") ∧
    decodeEnum invStatusTable 1 = "Normal" :=
  ⟨by simp, by decide,
   (decodeEnum_total_or_unknown invStatusTable (by simp) 7).2 (by decide),
   by decide,
   (decodeEnum_total_or_unknown invStatusTable (by simp) 1).1 ("Normal")
     (by decide)⟩

end Voltx

namespace Voltx

/-- Claim C8: in every poll cycle whose inverter-block read succeeds
(length guard satisfied), if the temperature register at doc address 1310
(offset 10) holds the sentinel raw 0x8000 then the decoded tmp field is
absent (None) rather than a number; for every other raw word it equals
round(s16(raw) * 0.1, 1). -/
theorem tmp_sentinel_absent (regs : List Nat) (w : Nat)
    (r2a r2b r3 : Option (List Nat))
    (hlen : 75 ≤ regs.length) (hw : regs[10]? = some w) (hub : w < 65536) :
    ∃ snap, fetchData true (some regs) r2a r2b r3 = Except.ok snap ∧
      (w = 32768 → snap.lookup ("tmp") = some Value.absent) ∧
      (w ≠ 32768 → snap.lookup ("tmp") =
        some (Value.rat (roundTo ((s16 w : ℚ) * (1 / 10)) 1))) := by
  obtain ⟨w7, e7⟩ := get_some_of_lt (show 7 < 75 by norm_num) hlen
  obtain ⟨w8, e8⟩ := get_some_of_lt (show 8 < 75 by norm_num) hlen
  obtain ⟨w16, e16⟩ := get_some_of_lt (show 16 < 75 by norm_num) hlen
  obtain ⟨w58, e58⟩ := get_some_of_lt (show 58 < 75 by norm_num) hlen
  obtain ⟨w59, e59⟩ := get_some_of_lt (show 59 < 75 by norm_num) hlen
  obtain ⟨w67, e67⟩ := get_some_of_lt (show 67 < 75 by norm_num) hlen
  obtain ⟨w68, e68⟩ := get_some_of_lt (show 68 < 75 by norm_num) hlen
  obtain ⟨w69, e69⟩ := get_some_of_lt (show 69 < 75 by norm_num) hlen
  obtain ⟨w70, e70⟩ := get_some_of_lt (show 70 < 75 by norm_num) hlen
  obtain ⟨w71, e71⟩ := get_some_of_lt (show 71 < 75 by norm_num) hlen
  obtain ⟨w72, e72⟩ := get_some_of_lt (show 72 < 75 by norm_num) hlen
  obtain ⟨w73, e73⟩ := get_some_of_lt (show 73 < 75 by norm_num) hlen
  obtain ⟨w74, e74⟩ := get_some_of_lt (show 74 < 75 by norm_num) hlen
  have hdec : decodeInverterBlock regs = some [
      ("hto", Value.int (w7 : Int)),
      ("flg", Value.str (decodeEnum invStatusTable (w8 : Int))),
      ("tmp", if s16 w = -32768 then Value.absent
              else Value.rat (roundTo ((s16 w : ℚ) * (1 / 10)) 1)),
      ("vbus", Value.rat (roundTo ((w16 : ℚ) * (1 / 10)) 1)),
      ("vac", Value.rat (roundTo ((w58 : ℚ) * (1 / 10)) 1)),
      ("iac", Value.rat (roundTo ((w59 : ℚ) * (1 / 10)) 1)),
      ("fac", Value.rat (roundTo ((w67 : ℚ) * (1 / 100)) 2)),
      ("sac", Value.int (s32 w68 w69)),
      ("pac", Value.int (s32 w70 w71)),
      ("qac", Value.int (s32 w72 w73)),
      ("pf", Value.rat (roundTo ((w74 : ℚ) * (1 / 100)) 2))] := by
    simp [decodeInverterBlock, e7, e8, hw, e16, e58, e59, e67, e68, e69,
          e70, e71, e72, e73, e74]
  have hs1 : blockSection (some regs) 75 decodeInverterBlock =
      Except.ok [
      ("hto", Value.int (w7 : Int)),
      ("flg", Value.str (decodeEnum invStatusTable (w8 : Int))),
      ("tmp", if s16 w = -32768 then Value.absent
              else Value.rat (roundTo ((s16 w : ℚ) * (1 / 10)) 1)),
      ("vbus", Value.rat (roundTo ((w16 : ℚ) * (1 / 10)) 1)),
      ("vac", Value.rat (roundTo ((w58 : ℚ) * (1 / 10)) 1)),
      ("iac", Value.rat (roundTo ((w59 : ℚ) * (1 / 10)) 1)),
      ("fac", Value.rat (roundTo ((w67 : ℚ) * (1 / 100)) 2)),
      ("sac", Value.int (s32 w68 w69)),
      ("pac", Value.int (s32 w70 w71)),
      ("qac", Value.int (s32 w72 w73)),
      ("pf", Value.rat (roundTo ((w74 : ℚ) * (1 / 100)) 2))] := by
    simp [blockSection, hlen, hdec]
  obtain ⟨f2a, hs2a, _⟩ := blockSection_ok r2a 2 decodeBattStatusBlock
    (fun _ h => decodeBattStatusBlock_total h)
  obtain ⟨f2b, hs2b, _⟩ := blockSection_ok r2b 13 decodeBattDataBlock
    (fun _ h => decodeBattDataBlock_total h)
  obtain ⟨f3, hs3, _⟩ := blockSection_ok r3 55 decodeHoldingBlock
    (fun _ h => decodeHoldingBlock_total h)
  refine ⟨_, fetchData_eq (some regs) r2a r2b r3 hs1 hs2a hs2b hs3, ?_, ?_⟩
  · intro hweq
    subst hweq
    have hs : s16 32768 = -32768 := by decide
    rw [List.lookup_append]
    simp [List.lookup, hs]
  · intro hne
    have hs : s16 w ≠ -32768 := by
      simp only [s16]
      have hmod : w % 65536 = w := Nat.mod_eq_of_lt hub
      rw [hmod]
      by_cases hlt : w < 32768 <;> simp [hlt]
      all_goals omega
    rw [List.lookup_append]
    simp [List.lookup, hs]

/-- Witness for C8 at a concrete cycle: 75 registers all holding the
sentinel 0x8000, the other blocks failing. -/
theorem tmp_sentinel_absent_witness :
    75 ≤ (List.replicate 75 32768).length ∧
    (List.replicate 75 32768)[10]? = some 32768 ∧ (32768 : Nat) < 65536 ∧
    (∃ snap, fetchData true (some (List.replicate 75 32768)) none none none =
        Except.ok snap ∧
      ((32768 : Nat) = 32768 → snap.lookup ("tmp") = some Value.absent) ∧
      ((32768 : Nat) ≠ 32768 → snap.lookup ("tmp") =
        some (Value.rat (roundTo ((s16 32768 : ℚ) * (1 / 10)) 1)))) :=
  ⟨by simp, by decide, by norm_num,
   tmp_sentinel_absent (List.replicate 75 32768) 32768 none none none
     (by simp) (by decide) (by norm_num)⟩

end Voltx

namespace Voltx

/-- The 16-bit word actually transmitted for a raw write value: the
value & 0xFFFF masking in coordinator._write_register. -/
def transmittedWord (raw : Int) : Nat := (raw % 65536).toNat

/-- Read-path decode of a writable field: the word sits in the holding
block at offset register - 1100 and the block is decoded as in
coordinator._fetch_data; the result is the field value at the entity key. -/
def readBackHolding (d : NumberDesc) (word : Nat) : Option Value :=
  ((decodeHoldingBlock
      ((List.replicate 55 0).set (d.register - 1100) word)).getD []).lookup
    d.key

/-- s16 recovers an in-range signed value from its masked 16-bit word. -/
theorem s16_of_emod (v : Int) (h1 : -32768 ≤ v) (h2 : v < 32768) :
    s16 ((v % 65536).toNat) = v := by
  have hnn : 0 ≤ v % 65536 := Int.emod_nonneg v (by norm_num)
  have hltm : v % 65536 < 65536 := Int.emod_lt_of_pos v (by norm_num)
  simp only [s16]
  have hmod : (v % 65536).toNat % 65536 = (v % 65536).toNat :=
    Nat.mod_eq_of_lt (by omega)
  rw [hmod]
  by_cases hc : (v % 65536).toNat < 32768 <;> simp [hc] <;> omega

/-- Counterexample to claim C6 as stated: the in-range consumer value 40.5
for the soc_max field (raw scale 100, native range 0 to 100) encodes to
raw 4050, but the read-path integer division by 100 decodes it to 40 — an
error of one half, far beyond the rounding tolerance of a scale-100 field
(at most 1/100). -/
theorem write_read_round_trip_counterexample :
    (⟨"soc_max", 1153, 100, 0, 100⟩ : NumberDesc) ∈ numberDescriptions ∧
    (0 : ℚ) ≤ 81 / 2 ∧ (81 / 2 : ℚ) ≤ 100 ∧
    encodeWrite (81 / 2 : ℚ) 100 = 4050 ∧
    readBackHolding ⟨"soc_max", 1153, 100, 0, 100⟩
        (transmittedWord (encodeWrite (81 / 2 : ℚ) 100)) =
      some (Value.int 40) ∧
    (81 / 2 : ℚ) - ((40 : Int) : ℚ) = 1 / 2 ∧ (1 / 100 : ℚ) < 1 / 2 := by
  have h1 : ((81 / 2 : ℚ)) * ((100 : Int) : ℚ) = ((4050 : Int) : ℚ) := by
    norm_num
  have henc : encodeWrite (81 / 2 : ℚ) 100 = 4050 := by
    rw [encodeWrite, h1, pythonRound_intCast]
  refine ⟨by simp [numberDescriptions], by norm_num, by norm_num, henc, ?_,
    by norm_num, by norm_num⟩
  rw [henc]
  rfl

/-- Claim C6 amended: for every writable field and every integer consumer
value in its native range, encoding the write (raw = round(value *
raw_scale), masked to 16 bits) and then running the read-path decode of
that register recovers the original value exactly. Non-integer in-range
values on the scale-100 fields are truncated by the integer-division read
decode and are not recovered within the tolerance of the scale. -/
theorem write_read_round_trip :
    ∀ d ∈ numberDescriptions, ∀ v : Int, d.minVal ≤ v → v ≤ d.maxVal →
      readBackHolding d (transmittedWord (encodeWrite (v : ℚ) d.rawScale)) =
        some (Value.int v) := by
  intro d hd v hmin hmax
  have henc : encodeWrite (v : ℚ) d.rawScale = v * d.rawScale := by
    rw [encodeWrite, ← Int.cast_mul, pythonRound_intCast]
  fin_cases hd
  · -- chpwr: raw_scale 1, s16 read-back
    simp only at henc hmin hmax
    have hrb : ∀ word : Nat,
        readBackHolding ⟨"chpwr", 1152, 1, -10000, 10000⟩ word =
          some (Value.int (s16 word)) := fun _ => rfl
    rw [henc, hrb, transmittedWord, mul_one]
    have := s16_of_emod v (by omega) (by omega)
    rw [this]
  · -- soc_max: raw_scale 100, integer-division read-back
    simp only at henc hmin hmax
    have hrb : ∀ word : Nat,
        readBackHolding ⟨"soc_max", 1153, 100, 0, 100⟩ word =
          some (Value.int ((word / 100 : Nat) : Int)) := fun _ => rfl
    rw [henc, hrb, transmittedWord]
    have hw : (v * 100 % 65536).toNat = (v.toNat * 100) := by omega
    rw [hw, Nat.mul_div_cancel _ (by norm_num)]
    have hvt : ((v.toNat : Nat) : Int) = v := by omega
    rw [hvt]
  · -- soc_min: raw_scale 100, integer-division read-back
    simp only at henc hmin hmax
    have hrb : ∀ word : Nat,
        readBackHolding ⟨"soc_min", 1154, 100, 0, 100⟩ word =
          some (Value.int ((word / 100 : Nat) : Int)) := fun _ => rfl
    rw [henc, hrb, transmittedWord]
    have hw : (v * 100 % 65536).toNat = (v.toNat * 100) := by omega
    rw [hw, Nat.mul_div_cancel _ (by norm_num)]
    have hvt : ((v.toNat : Nat) : Int) = v := by omega
    rw [hvt]

/-- Witness for C6: the soc_max field at value 40 encodes to raw 4000 and
decodes back to 40; chpwr at -5000 round-trips as well. -/
theorem write_read_round_trip_witness :
    (⟨"soc_max", 1153, 100, 0, 100⟩ : NumberDesc) ∈ numberDescriptions ∧
    (0 : Int) ≤ 40 ∧ (40 : Int) ≤ 100 ∧
    readBackHolding ⟨"soc_max", 1153, 100, 0, 100⟩
      (transmittedWord (encodeWrite ((40 : Int) : ℚ) 100)) =
        some (Value.int 40) :=
  ⟨by simp [numberDescriptions], by norm_num, by norm_num,
   write_read_round_trip ⟨"soc_max", 1153, 100, 0, 100⟩
     (by simp [numberDescriptions]) 40 (by norm_num) (by norm_num)⟩

/-- Claim C7: a write of a negative in-range value with raw scale 1
transmits the twos-complement 16-bit masking of the value; on success
exactly one forced refresh is scheduled and on failure (connection or
device) the error is surfaced to the caller with no refresh scheduled; the
stored snapshot is never mutated. -/
theorem write_negative_masked_refresh (connOpen deviceAccepts : Bool)
    (snap : Option Snapshot) (address : Nat) (v : Int)
    (hneg : v < 0) (hlb : -32768 ≤ v) :
    (connOpen = true →
      (asyncWriteRegister connOpen deviceAccepts snap address
        (encodeWrite (v : ℚ) 1)).sent = some (v + 65536).toNat) ∧
    (connOpen = true → deviceAccepts = true →
      (asyncWriteRegister connOpen deviceAccepts snap address
          (encodeWrite (v : ℚ) 1)).result = Except.ok () ∧
        (asyncWriteRegister connOpen deviceAccepts snap address
          (encodeWrite (v : ℚ) 1)).refreshes = 1) ∧
    (¬(connOpen = true ∧ deviceAccepts = true) →
      (∃ e, (asyncWriteRegister connOpen deviceAccepts snap address
          (encodeWrite (v : ℚ) 1)).result = Except.error e) ∧
        (asyncWriteRegister connOpen deviceAccepts snap address
          (encodeWrite (v : ℚ) 1)).refreshes = 0) ∧
    (asyncWriteRegister connOpen deviceAccepts snap address
      (encodeWrite (v : ℚ) 1)).snap = snap := by
  have henc : encodeWrite (v : ℚ) 1 = v := by
    rw [encodeWrite]
    norm_num [pythonRound_intCast]
  have hmask : (v % 65536).toNat = (v + 65536).toNat := by omega
  rw [henc]
  cases connOpen <;> cases deviceAccepts
  · exact ⟨by simp, by simp, fun _ => ⟨⟨_, rfl⟩, rfl⟩, rfl⟩
  · exact ⟨by simp, by simp, fun _ => ⟨⟨_, rfl⟩, rfl⟩, rfl⟩
  · refine ⟨fun _ => ?_, by simp, fun _ => ⟨⟨_, rfl⟩, rfl⟩, rfl⟩
    simp [asyncWriteRegister, hmask]
  · refine ⟨fun _ => ?_, fun _ _ => ⟨rfl, rfl⟩,
      fun h => absurd ⟨rfl, rfl⟩ h, rfl⟩
    simp [asyncWriteRegister, hmask]

/-- Witness for C7 at the claims concrete value -5000: the transmitted
word is 0xEC78 = 60536, with one refresh on success. -/
theorem write_negative_masked_refresh_witness :
    (-5000 : Int) < 0 ∧ (-32768 : Int) ≤ -5000 ∧
    ((true = true →
      (asyncWriteRegister true true (some []) 1152
        (encodeWrite ((-5000 : Int) : ℚ) 1)).sent =
          some ((-5000 : Int) + 65536).toNat) ∧
    (true = true → true = true →
      (asyncWriteRegister true true (some []) 1152
          (encodeWrite ((-5000 : Int) : ℚ) 1)).result = Except.ok () ∧
        (asyncWriteRegister true true (some []) 1152
          (encodeWrite ((-5000 : Int) : ℚ) 1)).refreshes = 1) ∧
    (¬(true = true ∧ true = true) →
      (∃ e, (asyncWriteRegister true true (some []) 1152
          (encodeWrite ((-5000 : Int) : ℚ) 1)).result = Except.error e) ∧
        (asyncWriteRegister true true (some []) 1152
          (encodeWrite ((-5000 : Int) : ℚ) 1)).refreshes = 0) ∧
    (asyncWriteRegister true true (some []) 1152
      (encodeWrite ((-5000 : Int) : ℚ) 1)).snap = some []) ∧
    ((-5000 : Int) + 65536).toNat = 60536 :=
  ⟨by norm_num, by norm_num,
   write_negative_masked_refresh true true (some []) 1152 (-5000)
     (by norm_num) (by norm_num),
   by decide⟩

/-- Claim C10: selecting an option label that is absent from the reverse
options map performs no register write, schedules no refresh, and leaves
the coordinator state unchanged; the operation returns normally. -/
theorem select_unknown_label_noop (connOpen deviceAccepts : Bool)
    (snap : Option Snapshot) (label : String)
    (h : workModeReverseMap.lookup label = none) :
    asyncSelectOption connOpen deviceAccepts snap label =
      { result := Except.ok (), sent := none, refreshes := 0, snap := snap } := by
  simp [asyncSelectOption, h]

/-- Witness for C10 at the concrete unknown label Off Grid. -/
theorem select_unknown_label_noop_witness :
    workModeReverseMap.lookup ("Off Grid") = none ∧
    asyncSelectOption true true (some []) ("Off Grid") =
      { result := Except.ok (), sent := none, refreshes := 0,
        snap := some [] } :=
  ⟨by decide,
   select_unknown_label_noop true true (some []) ("Off Grid") (by decide)⟩

end Voltx
